import Mathlib

/-
Shallow embedding of the fitness_ai repository (src/models/models.py,
src/models/database.py, src/agent/tools.py, src/agent/fitness_agent.py,
src/main.py).  Python floats are modelled as rationals, Python ints as
integers, datetimes as natural-number ticks, and the sqlite database as an
explicit record of row lists.  External model calls (Gemini) are passed in
as function parameters; a call that raises an exception is modelled by the
parameter returning `none`, and exception propagation by `Option`.
-/

/-- models.py: ActivityLevel literal type. -/
inductive ActivityLevel where
  | Sedentary
  | Moderate
  | Active
deriving DecidableEq, Repr

/-- models.py: FitnessGoal literal type. -/
inductive FitnessGoal where
  | WeightLoss
  | MuscleGain
  | Endurance
deriving DecidableEq, Repr

/-- models.py: BMICategory literal type. -/
inductive BMICategory where
  | Underweight
  | Normal
  | Overweight
  | Obese
deriving DecidableEq, Repr

/-- models.py: DietaryPreference literal type. -/
inductive DietaryPreference where
  | Vegan
  | Vegetarian
  | NonVegetarian
deriving DecidableEq, Repr

/-- Python `round(x, 2)` on an exact value: round half to even at two
decimal places (banker's rounding, as Python's `round` does). -/
def roundHalfEven (x : ℚ) : ℤ :=
  let n := ⌊x⌋
  let r := x - (n : ℚ)
  if r < 1/2 then n
  else if 1/2 < r then n + 1
  else if n % 2 = 0 then n else n + 1

/-- `round(q, 2)` from models.py's `bmi`. -/
def pythonRound2 (q : ℚ) : ℚ :=
  ((roundHalfEven (q * 100) : ℤ) : ℚ) / 100

/-- models.py `UserProfileData`: raw attributes only; the derived
attributes are the functions `bmi` and `bmi_category` below. -/
structure UserProfileData where
  name : String
  age : ℤ
  height_cm : ℚ
  weight_kg : ℚ
  activity_level : ActivityLevel
  fitness_goal : FitnessGoal
  dietary_preference : DietaryPreference
  blood_group : Option String
deriving DecidableEq, Repr

/-- models.py `UserProfileData.bmi` (a `computed_field` property:
recomputed from the raw attributes on every read). -/
def UserProfileData.bmi (p : UserProfileData) : ℚ :=
  let height_in_meters := p.height_cm / 100
  let calculated_bmi := p.weight_kg / (height_in_meters ^ 2)
  pythonRound2 calculated_bmi

/-- models.py `UserProfileData.bmi_category` (a `computed_field` property;
the exact if/elif/else chain of the source). -/
def UserProfileData.bmi_category (p : UserProfileData) : BMICategory :=
  if p.bmi < 18.5 then BMICategory.Underweight
  else if 18.5 ≤ p.bmi ∧ p.bmi < 25 then BMICategory.Normal
  else if 25 ≤ p.bmi ∧ p.bmi < 30 then BMICategory.Overweight
  else BMICategory.Obese

/-- The spec's four-bucket table (§3): BMI < 18.5 Underweight,
[18.5,25) Normal, [25,30) Overweight, ≥ 30 Obese.  Written from the
spec's words, to be compared with the source's `bmi_category`. -/
def bmiCategorySpec (b : ℚ) : BMICategory :=
  if b < 18.5 then BMICategory.Underweight
  else if b < 25 then BMICategory.Normal
  else if b < 30 then BMICategory.Overweight
  else BMICategory.Obese

/-- models.py `Message` (one conversation turn); timestamp as a tick. -/
structure Message where
  timestamp : ℕ
  user_message : String
  bot_reply : String
deriving DecidableEq, Repr

/-- models.py `Plan` (base of WorkoutPlan / DietPlan). -/
structure Plan where
  last_updated : ℕ
  plan_text : String
deriving DecidableEq, Repr

/-- models.py `User`. -/
structure User where
  user_id : String
  profile_data : UserProfileData
  workout_plan : Option Plan
  diet_plan : Option Plan
  conversation_history : List Message
deriving DecidableEq, Repr

/-- models.py `User.add_message` (timestamp supplied explicitly, standing
for `datetime.now`). -/
def User.add_message (u : User) (user_message bot_reply : String) (now : ℕ) : User :=
  { u with conversation_history :=
      u.conversation_history ++ [⟨now, user_message, bot_reply⟩] }

/-
database.py: the sqlite database as explicit row lists.  `users`,
`workout_plans` and `diet_plans` have a PRIMARY KEY on user_id and are
written with INSERT OR REPLACE (association-list upsert); the
`conversation_history` table has an AUTOINCREMENT id and is written with
plain INSERT (append-only list in rowid order).  The users table stores
the full `User` JSON dump; JSON round-tripping of the pydantic model is
modelled as storing the structural value.
-/

/-- database.py sqlite state. -/
structure DB where
  users : List (String × User)
  workout_plans : List (String × Plan)
  diet_plans : List (String × Plan)
  conversation_rows : List (String × Message)
deriving DecidableEq, Repr

/-- INSERT OR REPLACE on a PRIMARY KEY table. -/
def upsert {α : Type} (key : String) (v : α) (rows : List (String × α)) :
    List (String × α) :=
  (key, v) :: rows.filter (fun r => r.1 ≠ key)

/-- Association lookup (SELECT ... WHERE user_id = ?). -/
def lookupRow {α : Type} (key : String) (rows : List (String × α)) : Option α :=
  (rows.find? (fun r => r.1 = key)).map (fun r => r.2)

/-- Stable insert for `ORDER BY timestamp ASC`. -/
def insertByTs (m : Message) : List Message → List Message
  | [] => [m]
  | x :: xs =>
    if m.timestamp ≤ x.timestamp then m :: x :: xs else x :: insertByTs m xs

/-- Stable sort by timestamp ascending (`ORDER BY timestamp ASC`). -/
def sortByTs : List Message → List Message
  | [] => []
  | x :: xs => insertByTs x (sortByTs xs)

/-- database.py `save_user`: upserts the profile row and the plan rows,
then INSERTs every message of `conversation_history` into the
conversation_history table (plain INSERT, no existence check). -/
def save_user (db : DB) (u : User) : DB :=
  { users := upsert u.user_id u db.users
    workout_plans :=
      match u.workout_plan with
      | some p => upsert u.user_id p db.workout_plans
      | none => db.workout_plans
    diet_plans :=
      match u.diet_plan with
      | some p => upsert u.user_id p db.diet_plans
      | none => db.diet_plans
    conversation_rows :=
      db.conversation_rows ++ u.conversation_history.map (fun m => (u.user_id, m)) }

/-- database.py `get_user`: loads the stored profile, overrides the plans
from the plan tables when rows exist, and replaces the conversation
history with the filtered rows ordered by timestamp ascending. -/
def get_user (db : DB) (user_id : String) : Option User :=
  match lookupRow user_id db.users with
  | none => none
  | some stored =>
    let u1 :=
      match lookupRow user_id db.workout_plans with
      | some p => { stored with workout_plan := some p }
      | none => stored
    let u2 :=
      match lookupRow user_id db.diet_plans with
      | some p => { u1 with diet_plan := some p }
      | none => u1
    let msgs :=
      (db.conversation_rows.filter (fun r => r.1 = user_id)).map (fun r => r.2)
    some { u2 with conversation_history := sortByTs msgs }

/-- database.py `save_message`: INSERT one message pair directly. -/
def save_message (db : DB) (user_id user_message bot_reply : String) (now : ℕ) :
    DB :=
  { db with conversation_rows :=
      db.conversation_rows ++ [(user_id, ⟨now, user_message, bot_reply⟩)] }

/-
tools.py `parse_profile_update`: a small backtracking regex engine
covering exactly the constructs of the source's patterns (literals,
single-character classes \d \s \w, greedy star/plus of a class, optional
groups, alternation, one capture group per pattern), plus `re.search`
semantics: leftmost starting position, then backtracking priority order
(greedy quantifiers, left alternative first).
-/

/-- Character classes appearing in the source patterns. -/
inductive CharCls where
  | digit
  | space
  | word
deriving DecidableEq, Repr

/-- Membership in a character class (\d, \s, \w of Python `re`,
restricted to the ASCII text the lowered messages consist of). -/
def CharCls.mem : CharCls → Char → Bool
  | CharCls.digit, c => c.isDigit
  | CharCls.space, c =>
      c = ' ' || c = '\t' || c = '\n' || c = '\x0d' || c = '\x0b' || c = '\x0c'
  | CharCls.word, c => c.isAlphanum || c = '_'

/-- Regular-expression syntax used by the source patterns. -/
inductive RE where
  | eps : RE
  | lit : String → RE
  | one : CharCls → RE
  | many : CharCls → RE
  | opt : RE → RE
  | alt : RE → RE → RE
  | cat : RE → RE → RE
deriving Repr

/-- Greedy `\c*`: remainders after consuming a (longest-first) run of
class characters. -/
def manyRems (k : CharCls) : List Char → List (List Char)
  | [] => [[]]
  | c :: cs => if k.mem c then manyRems k cs ++ [c :: cs] else [c :: cs]

/-- All remainders after matching `r` at the front of the input, in
backtracking priority order (greedy first, left alternative first). -/
def rems : RE → List Char → List (List Char)
  | RE.eps, cs => [cs]
  | RE.lit s, cs =>
      if s.toList.isPrefixOf cs then [cs.drop s.length] else []
  | RE.one _, [] => []
  | RE.one k, c :: cs => if k.mem c then [cs] else []
  | RE.many k, cs => manyRems k cs
  | RE.opt r, cs => rems r cs ++ [cs]
  | RE.alt r1 r2, cs => rems r1 cs ++ rems r2 cs
  | RE.cat r1 r2, cs => (rems r1 cs).flatMap (rems r2)

/-- `\c+` as used in the source patterns. -/
def RE.plusCls (k : CharCls) : RE := RE.cat (RE.one k) (RE.many k)

/-- One source pattern: a pre-context, a single capture group, and a
post-context. -/
structure Pattern where
  pre : RE
  grp : RE
  post : RE

/-- Try to match the pattern anchored at the front of `cs`; return the
text of the capture group of the first match in backtracking priority
order (what `re.search` yields when it succeeds at this position). -/
def matchAt (p : Pattern) (cs : List Char) : Option String :=
  (rems p.pre cs).findSome? (fun r1 =>
    (rems p.grp r1).findSome? (fun r2 =>
      if (rems p.post r2).isEmpty then none
      else some (String.mk (r1.take (r1.length - r2.length)))))

/-- `re.search`: try each starting position, leftmost first. -/
def searchAux (p : Pattern) : List Char → Option String
  | [] => matchAt p []
  | c :: cs =>
    match matchAt p (c :: cs) with
    | some s => some s
    | none => searchAux p cs

/-- `re.search(pattern, message)` returning `group(1)`. -/
def searchP (p : Pattern) (m : String) : Option String :=
  searchAux p m.toList

/-- Python `str.lower()` (ASCII case folding, which covers every
character the source patterns and keyword checks can react to). -/
def lower (s : String) : String := String.mk (s.toList.map Char.toLower)

/-- Python `str.capitalize()`: first character upper-cased, the rest
lower-cased. -/
def capitalize (s : String) : String :=
  match s.toList with
  | [] => ""
  | c :: cs => String.mk (c.toUpper :: cs.map Char.toLower)

/-- Decimal digits to a natural number. -/
def natOfDigits (cs : List Char) : ℕ :=
  cs.foldl (fun a c => 10 * a + (c.toNat - 48)) 0

/-- Python `float(s)` on the capture language `\d+\.?\d*` of the source
patterns (anything outside that language yields `none`, the model of the
`except ValueError` branch). -/
def pyFloat (s : String) : Option ℚ :=
  let cs := s.toList
  let intDigits := cs.takeWhile (fun c => c.isDigit)
  let rest := cs.dropWhile (fun c => c.isDigit)
  if intDigits.isEmpty then none
  else
    match rest with
    | [] => some ((natOfDigits intDigits : ℕ) : ℚ)
    | '.' :: fs =>
      if fs.all (fun c => c.isDigit) then
        some (((natOfDigits intDigits : ℕ) : ℚ)
          + ((natOfDigits fs : ℕ) : ℚ) / ((10 : ℚ) ^ fs.length))
      else none
    | _ => none

/-- Python `int(s)` on the capture language `\d+`. -/
def pyInt (s : String) : Option ℤ :=
  let cs := s.toList
  if cs.isEmpty then none
  else if cs.all (fun c => c.isDigit) then some ((natOfDigits cs : ℕ) : ℤ)
  else none

/-- Python `sub in s` substring test. -/
def containsSub (s sub : String) : Bool :=
  decide (List.IsInfix sub.toList s.toList)

/-- `(?:now |currently )?` -/
def optNowCurrently : RE :=
  RE.opt (RE.alt (RE.lit "now ") (RE.lit "currently "))

/-- `(?:now )?` -/
def optNow : RE := RE.opt (RE.lit "now ")

/-- `(\d+\.?\d*)` -/
def numRE : RE :=
  RE.cat (RE.plusCls CharCls.digit)
    (RE.cat (RE.opt (RE.lit ".")) (RE.many CharCls.digit))

/-- `\s*(?:kg|kilos|kilograms)` -/
def kgUnits : RE :=
  RE.cat (RE.many CharCls.space)
    (RE.alt (RE.lit "kg") (RE.alt (RE.lit "kilos") (RE.lit "kilograms")))

/-- `\s*(?:cm|centimeters)` -/
def cmUnits : RE :=
  RE.cat (RE.many CharCls.space)
    (RE.alt (RE.lit "cm") (RE.lit "centimeters"))

/-- tools.py `weight_patterns`, in source order. -/
def weight_patterns : List Pattern :=
  [ ⟨RE.cat (RE.lit "my weight is ") optNowCurrently, numRE, kgUnits⟩,
    ⟨RE.cat (RE.lit "i ") (RE.cat optNow (RE.lit "weigh ")), numRE, kgUnits⟩,
    ⟨RE.lit "i\x27ve lost ", numRE, kgUnits⟩,
    ⟨RE.lit "i\x27ve gained ", numRE, kgUnits⟩,
    ⟨RE.cat (RE.lit "my weight ")
      (RE.cat (RE.opt (RE.lit "has ")) (RE.lit "changed to ")), numRE, kgUnits⟩,
    ⟨RE.lit "update my weight to ", numRE, kgUnits⟩,
    ⟨RE.cat (RE.lit "i am ") optNowCurrently, numRE, kgUnits⟩ ]

/-- tools.py `height_patterns`, in source order. -/
def height_patterns : List Pattern :=
  [ ⟨RE.cat (RE.lit "my height is ") optNowCurrently, numRE, cmUnits⟩,
    ⟨RE.cat (RE.lit "i am ") optNow, numRE, RE.cat cmUnits (RE.lit " tall")⟩,
    ⟨RE.lit "update my height to ", numRE, cmUnits⟩ ]

/-- tools.py `age_patterns`, in source order. -/
def age_patterns : List Pattern :=
  [ ⟨RE.cat (RE.lit "my age is ") optNowCurrently, RE.plusCls CharCls.digit, RE.eps⟩,
    ⟨RE.cat (RE.lit "i am ") optNow, RE.plusCls CharCls.digit, RE.lit " years old"⟩,
    ⟨RE.lit "update my age to ", RE.plusCls CharCls.digit, RE.eps⟩,
    ⟨RE.lit "i turned ", RE.plusCls CharCls.digit, RE.eps⟩ ]

/-- tools.py `activity_patterns`, in source order. -/
def activity_patterns : List Pattern :=
  [ ⟨RE.cat (RE.lit "my activity level is ") optNowCurrently,
      RE.plusCls CharCls.word, RE.eps⟩,
    ⟨RE.cat (RE.lit "i am ") optNow, RE.plusCls CharCls.word, RE.lit "ly active"⟩,
    ⟨RE.lit "update my activity level to ", RE.plusCls CharCls.word, RE.eps⟩ ]

/-- `activity in ACTIVITY_LEVELS` membership test after capitalize. -/
def levelOf (s : String) : Option ActivityLevel :=
  if s = "Sedentary" then some ActivityLevel.Sedentary
  else if s = "Moderate" then some ActivityLevel.Moderate
  else if s = "Active" then some ActivityLevel.Active
  else none

/-- The numeric extraction loops of tools.py (weight, height, age share
this shape): on the first pattern whose `re.search` succeeds, parse the
captured value; if parsing succeeds the loop `break`s whether or not the
range check admits the value (the field stays unset when it does not);
if parsing raises ValueError the loop moves to the next pattern. -/
def scanField {α : Type} (pats : List Pattern) (parseVal : String → Option α)
    (valid : α → Bool) (m : String) : Option α :=
  match pats with
  | [] => none
  | p :: ps =>
    match searchP p m with
    | some s =>
      match parseVal s with
      | some v => if valid v then some v else none
      | none => scanField ps parseVal valid m
    | none => scanField ps parseVal valid m

/-- The activity-level loop of tools.py: here the `break` sits inside
the membership check, so a match whose capitalized capture is not a
valid level does NOT stop the scan. -/
def scanActivity (pats : List Pattern) (m : String) : Option ActivityLevel :=
  match pats with
  | [] => none
  | p :: ps =>
    match searchP p m with
    | some s =>
      match levelOf (capitalize s) with
      | some lvl => some lvl
      | none => scanActivity ps m
    | none => scanActivity ps m

/-- tools.py fitness-goal keyword chain. -/
def goalOf (m : String) : Option FitnessGoal :=
  if containsSub m "weight loss" || containsSub m "lose weight"
      || containsSub m "losing weight" then some FitnessGoal.WeightLoss
  else if containsSub m "muscle gain" || containsSub m "build muscle"
      || containsSub m "gaining muscle" then some FitnessGoal.MuscleGain
  else if containsSub m "endurance" || containsSub m "stamina"
      || containsSub m "cardiovascular" then some FitnessGoal.Endurance
  else none

/-- tools.py dietary-preference keyword chain. -/
def dietOf (m : String) : Option DietaryPreference :=
  if containsSub m "vegan" || containsSub m "plant-based" then
    some DietaryPreference.Vegan
  else if containsSub m "vegetarian" then some DietaryPreference.Vegetarian
  else if containsSub m "non-vegetarian" || containsSub m "meat"
      || containsSub m "omnivore" then some DietaryPreference.NonVegetarian
  else none

/-- The `updates` dict of `parse_profile_update`: at most one value per
field. -/
structure Updates where
  weight_kg : Option ℚ
  height_cm : Option ℚ
  age : Option ℤ
  activity_level : Option ActivityLevel
  fitness_goal : Option FitnessGoal
  dietary_preference : Option DietaryPreference
deriving DecidableEq, Repr

/-- `if updates:` — dict truthiness. -/
def Updates.isEmpty (u : Updates) : Bool :=
  u.weight_kg.isNone && u.height_cm.isNone && u.age.isNone
    && u.activity_level.isNone && u.fitness_goal.isNone
    && u.dietary_preference.isNone

/-- tools.py `parse_profile_update`: each field scanned independently
over the lowered message. -/
def parse_profile_update (message : String) : Updates :=
  let m := lower message
  { weight_kg :=
      scanField weight_patterns pyFloat
        (fun w => decide ((30 : ℚ) ≤ w) && decide (w ≤ (300 : ℚ))) m
    height_cm :=
      scanField height_patterns pyFloat
        (fun h => decide ((100 : ℚ) ≤ h) && decide (h ≤ (250 : ℚ))) m
    age :=
      scanField age_patterns pyInt
        (fun a => decide ((12 : ℤ) ≤ a) && decide (a ≤ (120 : ℤ))) m
    activity_level := scanActivity activity_patterns m
    fitness_goal := goalOf m
    dietary_preference := dietOf m }

/-
tools.py update operations.  `update_user_profile` uses
`setattr(user.profile_data, field, new_value)`; the fields that
`parse_profile_update` can produce form the closed set below (the
`hasattr` failure branch is unreachable for them).  Every update saves
the user synchronously.
-/

/-- A typed (field, value) pair as applied by `update_user_profile`. -/
inductive FieldUpdate where
  | weight (w : ℚ)
  | height (h : ℚ)
  | age (a : ℤ)
  | activity (a : ActivityLevel)
  | goal (g : FitnessGoal)
  | diet (d : DietaryPreference)
deriving DecidableEq, Repr

/-- `setattr(user.profile_data, field, new_value)`. -/
def setField (p : UserProfileData) : FieldUpdate → UserProfileData
  | FieldUpdate.weight w => { p with weight_kg := w }
  | FieldUpdate.height h => { p with height_cm := h }
  | FieldUpdate.age a => { p with age := a }
  | FieldUpdate.activity a => { p with activity_level := a }
  | FieldUpdate.goal g => { p with fitness_goal := g }
  | FieldUpdate.diet d => { p with dietary_preference := d }

/-- tools.py `update_user_profile`: set the field, save the user
(BMI/category are not stored anywhere — they stay the computed functions
`bmi` / `bmi_category` of the raw attributes). -/
def update_user_profile (db : DB) (u : User) (f : FieldUpdate) : DB × User :=
  let u1 := { u with profile_data := setField u.profile_data f }
  (save_user db u1, u1)

/-- Sequential application of updates through `update_user_profile`. -/
def applySeq (db : DB) (u : User) : List FieldUpdate → DB × User
  | [] => (db, u)
  | f :: fs =>
    let s := update_user_profile db u f
    applySeq s.1 s.2 fs

/-- The `for field, value in updates.items():` loop of
`handle_profile_updates`, in dict insertion order (weight, height, age,
activity, goal, diet). -/
def Updates.toList (ups : Updates) : List FieldUpdate :=
  (ups.weight_kg.map FieldUpdate.weight).toList
    ++ (ups.height_cm.map FieldUpdate.height).toList
    ++ (ups.age.map FieldUpdate.age).toList
    ++ (ups.activity_level.map FieldUpdate.activity).toList
    ++ (ups.fitness_goal.map FieldUpdate.goal).toList
    ++ (ups.dietary_preference.map FieldUpdate.diet).toList

/-- tools.py `update_user_plans`: call the Artifact Regenerator (`gen`,
returning `none` when the external call raises), then replace BOTH plans
and save.  A `none` result propagates: the source has no try/except
around the generation call, so the exception escapes the function. -/
def update_user_plans (db : DB) (u : User)
    (gen : User → Option (String × String)) (now : ℕ) :
    Option (DB × User × String × String) :=
  match gen u with
  | none => none
  | some (workout_plan, diet_plan) =>
    let u1 := { u with
      workout_plan := some ⟨now, workout_plan⟩
      diet_plan := some ⟨now, diet_plan⟩ }
    some (save_user db u1, u1, workout_plan, diet_plan)

/-- tools.py `handle_profile_updates`: extract, apply every extracted
update (each one saving), then — only when something was extracted — ask
the y/n question (`optIn`) and regenerate plans on yes.  The returned
flag is the source's `plans_updated`.  `none` models the uncaught
exception from a failed regeneration call. -/
def handle_profile_updates (db : DB) (u : User) (message : String)
    (optIn : Bool) (gen : User → Option (String × String)) (now : ℕ) :
    Option (DB × User × Bool) :=
  let updates := parse_profile_update message
  if updates.isEmpty then some (db, u, false)
  else
    let s := applySeq db u updates.toList
    if optIn then
      match update_user_plans s.1 s.2 gen now with
      | none => none
      | some (db2, u2, _, _) => some (db2, u2, true)
    else some (s.1, s.2, false)

/-
fitness_agent.py conversation layer.  The system prompt is a pure
rendering of the user snapshot (profile, BMI, plans), so the context is
modelled as that snapshot plus the LangChain chat-history list; the
external model is a parameter receiving exactly what the chain supplies:
the system context, the current chat history and the new input.
-/

/-- A LangChain history entry (HumanMessage / AIMessage). -/
inductive ChatMsg where
  | human (s : String)
  | ai (s : String)
deriving DecidableEq, Repr

/-- fitness_agent.py `ConversationWrapper` together with the chain it
wraps: the system context (built once from the user) and the mutable
chat history. -/
structure Conversation where
  sysUser : User
  chat_history : List ChatMsg
deriving DecidableEq, Repr

/-- fitness_agent.py `setup_llm`: system prompt from the user snapshot;
seeded history = the last 10 turns of `conversation_history`
(`user.conversation_history[-10:]`), two entries per turn. -/
def setup_llm (u : User) : Conversation :=
  { sysUser := u
    chat_history :=
      (u.conversation_history.drop (u.conversation_history.length - 10)).flatMap
        (fun m => [ChatMsg.human m.user_message, ChatMsg.ai m.bot_reply]) }

/-- fitness_agent.py `ConversationWrapper.predict`: invoke the chain on
the CURRENT chat history, then append the new turn to it. -/
def Conversation.predict (c : Conversation) (input : String)
    (llm : User → List ChatMsg → String → String) : String × Conversation :=
  let response := llm c.sysUser c.chat_history input
  (response,
    { c with chat_history :=
        c.chat_history ++ [ChatMsg.human input, ChatMsg.ai response] })

/-- Observable side effects of one free-text message iteration of
main.py `chat_loop`, in program order. -/
inductive Event where
  | reconciled
  | plansRegenerated
  | contextRebuilt
  | llmCalled
  | turnAppended
  | messagePersisted
deriving DecidableEq, Repr

/-- Result of one free-text message iteration, with the context that was
handed to the model (`suppliedContext`) and the side-effect trace kept
observable. -/
structure StepResult where
  db : DB
  user : User
  conv : Conversation
  reply : String
  suppliedContext : Conversation
  trace : List Event
deriving DecidableEq, Repr

/-- main.py `chat_loop`, one free-text message (lines 482-518):
(1) `handle_profile_updates`, (2) `setup_llm` again iff `plans_updated`,
(3) `conversation.predict`, (4) `user.add_message`, (5) `save_message`.
`none` models an exception escaping the iteration. -/
def processMessage (db : DB) (u : User) (conv : Conversation)
    (message : String) (optIn : Bool)
    (gen : User → Option (String × String))
    (llm : User → List ChatMsg → String → String) (now : ℕ) :
    Option StepResult :=
  match handle_profile_updates db u message optIn gen now with
  | none => none
  | some (db1, u1, plans_updated) =>
    let t1 := [Event.reconciled]
      ++ (if plans_updated then [Event.plansRegenerated, Event.contextRebuilt]
          else [])
    let conv1 := if plans_updated then setup_llm u1 else conv
    let pr := conv1.predict message llm
    let u2 := u1.add_message message pr.1 now
    let db2 := save_message db1 u1.user_id message pr.1 now
    some { db := db2, user := u2, conv := pr.2, reply := pr.1,
           suppliedContext := conv1,
           trace := t1 ++ [Event.llmCalled, Event.turnAppended,
                           Event.messagePersisted] }

/-
Concrete fixtures used by witnesses and counterexamples (matching the
spec's running example: height 175 cm, weight 75 kg, Sedentary).
-/

/-- A valid profile (the spec §8.6 starting profile). -/
def profile0 : UserProfileData :=
  ⟨"a", 25, 175, 75, ActivityLevel.Sedentary, FitnessGoal.WeightLoss,
    DietaryPreference.Vegan, none⟩

/-- A user holding `profile0`, no plans, empty history. -/
def user0 : User := ⟨"u1", profile0, none, none, []⟩

/-- The empty database (fresh `init_db`). -/
def dbEmpty : DB := ⟨[], [], [], []⟩

/-- An Artifact Regenerator whose external call succeeds. -/
def genOk : User → Option (String × String) := fun _ => some ("wplan", "dplan")

/-- An Artifact Regenerator whose external call raises. -/
def genFail : User → Option (String × String) := fun _ => none

/-- A conversational model stub. -/
def llm0 : User → List ChatMsg → String → String := fun _ _ _ => "ok"

/-
Helper lemmas shared by several claims.
-/

/-- The source's if/elif/else category chain computes exactly the spec's
four-bucket table of the (rounded) BMI value. -/
theorem bmi_category_eq_spec (p : UserProfileData) :
    p.bmi_category = bmiCategorySpec p.bmi := by
  unfold UserProfileData.bmi_category bmiCategorySpec
  rcases lt_or_le p.bmi 18.5 with h1 | h1
  · rw [if_pos h1, if_pos h1]
  · rw [if_neg (not_lt.mpr h1), if_neg (not_lt.mpr h1)]
    rcases lt_or_le p.bmi 25 with h2 | h2
    · rw [if_pos ⟨h1, h2⟩, if_pos h2]
    · rw [if_neg (fun hc => absurd hc.2 (not_lt.mpr h2)), if_neg (not_lt.mpr h2)]
      rcases lt_or_le p.bmi 30 with h3 | h3
      · rw [if_pos ⟨h2, h3⟩, if_pos h3]
      · rw [if_neg (fun hc => absurd hc.2 (not_lt.mpr h3)), if_neg (not_lt.mpr h3)]

/-- A numeric-field scan only ever returns a value admitted by its range
check. -/
theorem scanField_valid {α : Type} (pats : List Pattern)
    (parseVal : String → Option α) (valid : α → Bool) (m : String) (v : α)
    (h : scanField pats parseVal valid m = some v) : valid v = true := by
  induction pats with
  | nil => simp [scanField] at h
  | cons p ps ih =>
    cases hs : searchP p m with
    | none =>
      simp only [scanField, hs] at h
      exact ih h
    | some s =>
      cases hp : parseVal s with
      | none =>
        simp only [scanField, hs, hp] at h
        exact ih h
      | some w =>
        by_cases hv : valid w = true
        · simp only [scanField, hs, hp, if_pos hv] at h
          injection h with h2
          exact h2 ▸ hv
        · simp only [scanField, hs, hp, if_neg hv] at h
          exact absurd h (by simp)

/-- Two history entries are seeded per conversation turn. -/
theorem chatHistory_length (l : List Message) :
    (l.flatMap (fun m => [ChatMsg.human m.user_message, ChatMsg.ai m.bot_reply])).length
      = 2 * l.length := by
  induction l with
  | nil => rfl
  | cons x xs ih => simp [List.flatMap_cons, ih]; ring

/-- C1: for every profile with valid height_cm and weight_kg, the derived
BMI equals round(weight_kg / (height_cm/100)^2, 2), and the BMI category
is the pure four-bucket step function of that BMI with exact boundaries
(18.5 is Normal, 25.0 is Overweight, 30.0 is Obese). -/
theorem C1_bmi_and_category (h w : ℚ) (hh : 100 ≤ h ∧ h ≤ 250)
    (hw : 30 ≤ w ∧ w ≤ 300) (name : String) (age : ℤ) (al : ActivityLevel)
    (fg : FitnessGoal) (dp : DietaryPreference) (bg : Option String) :
    (UserProfileData.bmi ⟨name, age, h, w, al, fg, dp, bg⟩
        = pythonRound2 (w / (h / 100) ^ 2))
    ∧ (UserProfileData.bmi_category ⟨name, age, h, w, al, fg, dp, bg⟩
        = bmiCategorySpec (UserProfileData.bmi ⟨name, age, h, w, al, fg, dp, bg⟩))
    ∧ bmiCategorySpec 18.5 = BMICategory.Normal
    ∧ bmiCategorySpec 25 = BMICategory.Overweight
    ∧ bmiCategorySpec 30 = BMICategory.Obese := by
  refine ⟨rfl, bmi_category_eq_spec _, ?_, ?_, ?_⟩ <;>
    · unfold bmiCategorySpec
      norm_num

/-- Witness for C1 at the spec's running example (175 cm, 75 kg). -/
theorem C1_bmi_and_category_witness :
    (UserProfileData.bmi ⟨"a", 25, 175, 75, ActivityLevel.Sedentary,
        FitnessGoal.WeightLoss, DietaryPreference.Vegan, none⟩
      = pythonRound2 (75 / ((175 : ℚ) / 100) ^ 2))
    ∧ (UserProfileData.bmi_category ⟨"a", 25, 175, 75, ActivityLevel.Sedentary,
        FitnessGoal.WeightLoss, DietaryPreference.Vegan, none⟩
      = bmiCategorySpec (UserProfileData.bmi ⟨"a", 25, 175, 75,
          ActivityLevel.Sedentary, FitnessGoal.WeightLoss,
          DietaryPreference.Vegan, none⟩))
    ∧ bmiCategorySpec 18.5 = BMICategory.Normal
    ∧ bmiCategorySpec 25 = BMICategory.Overweight
    ∧ bmiCategorySpec 30 = BMICategory.Obese :=
  C1_bmi_and_category 175 75 (by norm_num) (by norm_num) "a" 25
    ActivityLevel.Sedentary FitnessGoal.WeightLoss DietaryPreference.Vegan none

/-- C2: after any sequence of profile mutations through
`update_user_profile`, a mutation of weight (or height) is immediately
reflected by the next read of BMI and BMI category: both are recomputed
from the new raw attributes, never from the old ones. -/
theorem C2_derived_never_stale (db : DB) (u : User) (fs : List FieldUpdate)
    (w h : ℚ) :
    ((update_user_profile (applySeq db u fs).1 (applySeq db u fs).2
        (FieldUpdate.weight w)).2.profile_data.weight_kg = w
      ∧ (update_user_profile (applySeq db u fs).1 (applySeq db u fs).2
          (FieldUpdate.weight w)).2.profile_data.bmi
        = pythonRound2 (w / ((applySeq db u fs).2.profile_data.height_cm / 100) ^ 2)
      ∧ (update_user_profile (applySeq db u fs).1 (applySeq db u fs).2
          (FieldUpdate.weight w)).2.profile_data.bmi_category
        = bmiCategorySpec ((update_user_profile (applySeq db u fs).1
            (applySeq db u fs).2 (FieldUpdate.weight w)).2.profile_data.bmi))
    ∧ ((update_user_profile (applySeq db u fs).1 (applySeq db u fs).2
        (FieldUpdate.height h)).2.profile_data.height_cm = h
      ∧ (update_user_profile (applySeq db u fs).1 (applySeq db u fs).2
          (FieldUpdate.height h)).2.profile_data.bmi
        = pythonRound2 ((applySeq db u fs).2.profile_data.weight_kg / (h / 100) ^ 2)
      ∧ (update_user_profile (applySeq db u fs).1 (applySeq db u fs).2
          (FieldUpdate.height h)).2.profile_data.bmi_category
        = bmiCategorySpec ((update_user_profile (applySeq db u fs).1
            (applySeq db u fs).2 (FieldUpdate.height h)).2.profile_data.bmi)) :=
  ⟨⟨rfl, rfl, bmi_category_eq_spec _⟩, ⟨rfl, rfl, bmi_category_eq_spec _⟩⟩

/-- C3 counterexample: on "i turned 30" with the user declining plan
regeneration, an extracted update IS applied (age 25 becomes 30) yet the
returned flag is false — the flag is the source's `plans_updated`, not
"any update applied", so the claimed iff fails. -/
theorem C3_flag_counterexample :
    (¬ ∀ (db : DB) (u : User) (msg : String) (optIn : Bool)
        (gen : User → Option (String × String)) (now : ℕ)
        (db1 : DB) (u1 : User) (flag : Bool),
        handle_profile_updates db u msg optIn gen now = some (db1, u1, flag) →
        (flag = true ↔ (parse_profile_update msg).isEmpty = false))
    ∧ (handle_profile_updates dbEmpty user0 "i turned 30" false genOk 3).map
        (fun r => (r.2.1.profile_data.age, r.2.2)) = some (30, false)
    ∧ user0.profile_data.age = 25 := by
  have hconc : (handle_profile_updates dbEmpty user0 "i turned 30" false genOk 3).map
      (fun r => (r.2.1.profile_data.age, r.2.2)) = some (30, false) := by decide
  refine ⟨?_, hconc, rfl⟩
  intro hall
  cases hpm : handle_profile_updates dbEmpty user0 "i turned 30" false genOk 3 with
  | none => rw [hpm] at hconc; simp at hconc
  | some r =>
    rw [hpm] at hconc
    simp only [Option.map] at hconc
    injection hconc with hconc
    have hflag : r.2.2 = false := congrArg Prod.snd hconc
    have hiff := hall dbEmpty user0 "i turned 30" false genOk 3 r.1 r.2.1 r.2.2
      (by rw [hpm])
    have hne : (parse_profile_update "i turned 30").isEmpty = false := by decide
    have hft := hiff.mpr hne
    rw [hflag] at hft
    cases hft

/-- C3 amended: `handle_profile_updates` returns `(profile', flag)` where
the flag is true iff at least one update was extracted (every extracted
update is applied) AND the user opted into plan regeneration (and that
regeneration call succeeded); reconciling an empty set of extracted
updates leaves profile and database unchanged and returns the flag
false. -/
theorem C3_flag_amended (db : DB) (u : User) (msg : String) (optIn : Bool)
    (gen : User → Option (String × String)) (now : ℕ)
    (hgen : ∀ v, (gen v).isSome = true) :
    ((handle_profile_updates db u msg optIn gen now).map (fun r => r.2.2)
      = some (!(parse_profile_update msg).isEmpty && optIn))
    ∧ ((parse_profile_update msg).isEmpty = true →
        handle_profile_updates db u msg optIn gen now = some (db, u, false)) := by
  constructor
  · unfold handle_profile_updates
    cases hE : (parse_profile_update msg).isEmpty
    · rw [if_neg (by simp [hE])]
      cases optIn
      · simp [hE]
      · unfold update_user_plans
        cases hgs : gen (applySeq db u (parse_profile_update msg).toList).2 with
        | none =>
          have hg := hgen (applySeq db u (parse_profile_update msg).toList).2
          rw [hgs] at hg
          simp at hg
        | some wd =>
          obtain ⟨w, d⟩ := wd
          simp [hgs, hE]
    · rw [if_pos (by simp [hE])]
      simp [hE]
  · intro hE
    unfold handle_profile_updates
    rw [if_pos (by simp [hE])]

/-- Witness for C3 amended, at a message with one extracted update and
opt-in declined. -/
theorem C3_flag_amended_witness :
    ((handle_profile_updates dbEmpty user0 "i turned 30" false genOk 3).map
        (fun r => r.2.2)
      = some (!(parse_profile_update "i turned 30").isEmpty && false))
    ∧ ((parse_profile_update "i turned 30").isEmpty = true →
        handle_profile_updates dbEmpty user0 "i turned 30" false genOk 3
          = some (dbEmpty, user0, false)) :=
  C3_flag_amended dbEmpty user0 "i turned 30" false genOk 3 (fun _ => rfl)

/-- C4 counterexample: on "my activity level is x i am moderately
active" the FIRST activity template matches (capture "x", whose
capitalization is not a valid level), yet the extracted value is
Moderate — it comes from a later template, which the claim says is never
evaluated once an earlier template matched. -/
theorem C4_first_match_counterexample :
    (¬ ∀ (m : String) (p : Pattern) (ps : List Pattern),
        activity_patterns = p :: ps →
        (searchP p (lower m)).isSome = true →
        (parse_profile_update m).activity_level
          = (searchP p (lower m)).bind (fun s => levelOf (capitalize s)))
    ∧ (activity_patterns.head?.map
        (fun p => searchP p (lower "my activity level is x i am moderately active")))
      = some (some "x")
    ∧ levelOf (capitalize "x") = none
    ∧ (parse_profile_update
        "my activity level is x i am moderately active").activity_level
      = some ActivityLevel.Moderate := by
  refine ⟨?_, by decide, by decide, by decide⟩
  intro hall
  have h := hall "my activity level is x i am moderately active"
    ⟨RE.cat (RE.lit "my activity level is ") optNowCurrently,
      RE.plusCls CharCls.word, RE.eps⟩
    [⟨RE.cat (RE.lit "i am ") optNow, RE.plusCls CharCls.word,
      RE.lit "ly active"⟩,
     ⟨RE.lit "update my activity level to ", RE.plusCls CharCls.word, RE.eps⟩]
    rfl (by decide)
  exact absurd h (by decide)

/-- C4 amended: at most one value per field; distinct fields extract
independently so one message can update several fields; for the numeric
fields (weight, height, age) the first matching template wins and later
templates are not evaluated, even when the first match's value fails its
range check (the field is then left unset); for activity level a
matching template whose capitalized capture is not a valid level does
NOT stop the scan, and a later template may supply the value. -/
theorem C4_first_match_amended :
    (∀ (α : Type) (p : Pattern) (ps : List Pattern)
        (parseVal : String → Option α) (valid : α → Bool) (m s : String) (v : α),
        searchP p m = some s → parseVal s = some v →
        scanField (p :: ps) parseVal valid m
          = (if valid v then some v else none))
    ∧ (∀ (p : Pattern) (ps : List Pattern) (m s : String),
        searchP p m = some s → levelOf (capitalize s) = none →
        scanActivity (p :: ps) m = scanActivity ps m)
    ∧ (parse_profile_update "i turned 30 and i want to build muscle").age = some 30
    ∧ (parse_profile_update "i turned 30 and i want to build muscle").fitness_goal
      = some FitnessGoal.MuscleGain := by
  refine ⟨?_, ?_, by decide, by decide⟩
  · intro α p ps parseVal valid m s v hs hp
    simp [scanField, hs, hp]
  · intro p ps m s hs hl
    simp [scanActivity, hs, hl]

/-- Witness for C4 amended: the numeric first-match rule at "my weight
is 80 kg", and the activity continue-on-invalid rule at the
counterexample message. -/
theorem C4_first_match_amended_witness :
    (scanField [⟨RE.cat (RE.lit "my weight is ") optNowCurrently, numRE, kgUnits⟩]
        pyFloat (fun _ => true) (lower "my weight is 80 kg")
      = (if (fun (_ : ℚ) => true) 80 then some (80 : ℚ) else none))
    ∧ (scanActivity
        (⟨RE.cat (RE.lit "my activity level is ") optNowCurrently,
            RE.plusCls CharCls.word, RE.eps⟩ ::
          [⟨RE.cat (RE.lit "i am ") optNow, RE.plusCls CharCls.word,
              RE.lit "ly active"⟩,
           ⟨RE.lit "update my activity level to ", RE.plusCls CharCls.word,
              RE.eps⟩])
        (lower "my activity level is x i am moderately active")
      = scanActivity
          [⟨RE.cat (RE.lit "i am ") optNow, RE.plusCls CharCls.word,
              RE.lit "ly active"⟩,
           ⟨RE.lit "update my activity level to ", RE.plusCls CharCls.word,
              RE.eps⟩]
          (lower "my activity level is x i am moderately active")) :=
  ⟨C4_first_match_amended.1 ℚ _ [] pyFloat (fun _ => true) _ "80" 80
      (by decide) (by decide),
    C4_first_match_amended.2.1 _ _ _ "x" (by decide) (by decide)⟩

/-- C5: a batch containing an out-of-range value (weight 5) and a valid
value (age 30) applies the valid one and silently drops the invalid one
with no error and no rollback; the admitted ranges are exactly age in
[12,120], height_cm in [100,250], weight_kg in [30,300], and activity
values must be exact members of the enumerated set after
capitalization. -/
theorem C5_validation :
    ((parse_profile_update "i now weigh 5 kg and my age is 30").weight_kg = none)
    ∧ ((parse_profile_update "i now weigh 5 kg and my age is 30").age = some 30)
    ∧ ((handle_profile_updates dbEmpty user0 "i now weigh 5 kg and my age is 30"
          false genOk 4).map
        (fun r => (r.2.1.profile_data.age, r.2.1.profile_data.weight_kg, r.2.2))
      = some (30, 75, false))
    ∧ (∀ (m : String) (w : ℚ), (parse_profile_update m).weight_kg = some w →
        30 ≤ w ∧ w ≤ 300)
    ∧ (∀ (m : String) (h : ℚ), (parse_profile_update m).height_cm = some h →
        100 ≤ h ∧ h ≤ 250)
    ∧ (∀ (m : String) (a : ℤ), (parse_profile_update m).age = some a →
        12 ≤ a ∧ a ≤ 120)
    ∧ (∀ s : String, (levelOf s).isSome = true →
        s = "Sedentary" ∨ s = "Moderate" ∨ s = "Active") := by
  refine ⟨by decide, by decide, by decide, ?_, ?_, ?_, ?_⟩
  · intro m w hw
    have hw2 : scanField weight_patterns pyFloat
        (fun w => decide ((30 : ℚ) ≤ w) && decide (w ≤ (300 : ℚ)))
        (lower m) = some w := hw
    have hv := scanField_valid _ _ _ _ _ hw2
    simp only [Bool.and_eq_true, decide_eq_true_eq] at hv
    exact hv
  · intro m h hh
    have hh2 : scanField height_patterns pyFloat
        (fun h => decide ((100 : ℚ) ≤ h) && decide (h ≤ (250 : ℚ)))
        (lower m) = some h := hh
    have hv := scanField_valid _ _ _ _ _ hh2
    simp only [Bool.and_eq_true, decide_eq_true_eq] at hv
    exact hv
  · intro m a ha
    have ha2 : scanField age_patterns pyInt
        (fun a => decide ((12 : ℤ) ≤ a) && decide (a ≤ (120 : ℤ)))
        (lower m) = some a := ha
    have hv := scanField_valid _ _ _ _ _ ha2
    simp only [Bool.and_eq_true, decide_eq_true_eq] at hv
    exact hv
  · intro s hs
    unfold levelOf at hs
    split_ifs at hs with h1 h2 h3
    · exact Or.inl h1
    · exact Or.inr (Or.inl h2)
    · exact Or.inr (Or.inr h3)
    · simp at hs

/-- Witness for C5's range rules at concrete extractions. -/
theorem C5_validation_witness :
    ((30 : ℚ) ≤ 80 ∧ (80 : ℚ) ≤ 300) ∧ ((12 : ℤ) ≤ 30 ∧ (30 : ℤ) ≤ 120) :=
  ⟨C5_validation.2.2.2.1 "my weight is 80 kg" 80 (by decide),
    C5_validation.2.2.2.2.2.1 "i turned 30" 30 (by decide)⟩

/-- The user after "i turned 30" is applied to `user0`. -/
def userAge30 : User := { user0 with profile_data := { profile0 with age := 30 } }

/-- C6 counterexample: when the profile changes but the user declines
plan regeneration, the context handed to the model still carries the OLD
profile (weight 75) while the reconciled profile has the new weight 80 —
the model DOES generate its reply from a stale profile on this path. -/
theorem C6_stale_context_counterexample :
    (¬ ∀ (db : DB) (u : User) (conv : Conversation) (msg : String)
        (optIn : Bool) (gen : User → Option (String × String))
        (llm : User → List ChatMsg → String → String) (now : ℕ)
        (r : StepResult),
        processMessage db u conv msg optIn gen llm now = some r →
        r.suppliedContext.sysUser.profile_data = r.user.profile_data)
    ∧ (processMessage dbEmpty user0 (setup_llm user0) "i now weigh 80 kg"
          false genOk llm0 7).map
        (fun r => (r.suppliedContext.sysUser.profile_data.weight_kg,
                   r.user.profile_data.weight_kg))
      = some (75, 80) := by
  have hconc : (processMessage dbEmpty user0 (setup_llm user0)
      "i now weigh 80 kg" false genOk llm0 7).map
      (fun r => (r.suppliedContext.sysUser.profile_data.weight_kg,
                 r.user.profile_data.weight_kg)) = some (75, 80) := by decide
  refine ⟨?_, hconc⟩
  intro hall
  cases hpm : processMessage dbEmpty user0 (setup_llm user0) "i now weigh 80 kg"
      false genOk llm0 7 with
  | none => rw [hpm] at hconc; simp at hconc
  | some r =>
    rw [hpm] at hconc
    simp only [Option.map] at hconc
    injection hconc with hconc
    have h1 : r.suppliedContext.sysUser.profile_data.weight_kg = 75 :=
      congrArg Prod.fst hconc
    have h2 : r.user.profile_data.weight_kg = 80 := congrArg Prod.snd hconc
    have heq := hall dbEmpty user0 (setup_llm user0) "i now weigh 80 kg" false
      genOk llm0 7 r hpm
    rw [heq] at h1
    rw [h1] at h2
    exact absurd h2 (by norm_num)

/-- C6 amended: within one free-text message the side effects happen in
the order extract-and-reconcile, then (iff the user opted in and plans
were regenerated) context rebuild from the reconciled profile, then the
model call on exactly the supplied context, then the turn append, then
the message persist; the model sees the reconciled profile whenever the
rebuild happened (opt-in), but keeps the previously built context — a
stale profile — when the user declines regeneration. -/
theorem C6_ordering_amended (db : DB) (u : User) (conv : Conversation)
    (msg : String) (optIn : Bool) (gen : User → Option (String × String))
    (llm : User → List ChatMsg → String → String) (now : ℕ)
    (db1 : DB) (u1 : User) (pu : Bool)
    (hh : handle_profile_updates db u msg optIn gen now = some (db1, u1, pu)) :
    ∃ r : StepResult,
      processMessage db u conv msg optIn gen llm now = some r
      ∧ r.suppliedContext = (if pu then setup_llm u1 else conv)
      ∧ r.reply = llm r.suppliedContext.sysUser r.suppliedContext.chat_history msg
      ∧ r.user = u1.add_message msg r.reply now
      ∧ r.db = save_message db1 u1.user_id msg r.reply now
      ∧ r.conv.chat_history = r.suppliedContext.chat_history
          ++ [ChatMsg.human msg, ChatMsg.ai r.reply]
      ∧ r.trace = [Event.reconciled]
          ++ (if pu then [Event.plansRegenerated, Event.contextRebuilt] else [])
          ++ [Event.llmCalled, Event.turnAppended, Event.messagePersisted]
      ∧ (pu = true → r.suppliedContext.sysUser = u1) := by
  unfold processMessage
  rw [hh]
  refine ⟨_, rfl, rfl, rfl, rfl, rfl, rfl, rfl, ?_⟩
  intro hpu
  cases hpu
  rfl

/-- Witness for C6 amended at a message with no extracted updates. -/
theorem C6_ordering_amended_witness :
    ∃ r : StepResult,
      processMessage dbEmpty user0 (setup_llm user0) "hello" false genOk llm0 3
        = some r
      ∧ r.suppliedContext
          = (if (false : Bool) then setup_llm user0 else setup_llm user0)
      ∧ r.reply = llm0 r.suppliedContext.sysUser r.suppliedContext.chat_history
          "hello"
      ∧ r.user = user0.add_message "hello" r.reply 3
      ∧ r.db = save_message dbEmpty user0.user_id "hello" r.reply 3
      ∧ r.conv.chat_history = r.suppliedContext.chat_history
          ++ [ChatMsg.human "hello", ChatMsg.ai r.reply]
      ∧ r.trace = [Event.reconciled]
          ++ (if (false : Bool) then [Event.plansRegenerated, Event.contextRebuilt]
              else [])
          ++ [Event.llmCalled, Event.turnAppended, Event.messagePersisted]
      ∧ ((false : Bool) = true → r.suppliedContext.sysUser = user0) :=
  C6_ordering_amended dbEmpty user0 (setup_llm user0) "hello" false genOk llm0 3
    dbEmpty user0 false (by decide)

/-- C7 counterexample: a failed regeneration call is NOT recovered
locally — the exception propagates out of `update_user_plans`, out of
`handle_profile_updates`, and out of the whole message-processing step
(no reply, no notice to the user), refuting "the failure is recovered
locally, and the user is informed". -/
theorem C7_regeneration_counterexample :
    update_user_plans dbEmpty user0 genFail 7 = none
    ∧ handle_profile_updates dbEmpty user0 "i now weigh 80 kg" true genFail 7
        = none
    ∧ processMessage dbEmpty user0 (setup_llm user0) "i now weigh 80 kg" true
        genFail llm0 7 = none :=
  ⟨rfl, by decide, by decide⟩

/-- C7 amended: regeneration replaces both plan texts wholesale (both
plans replaced with the fresh texts and timestamp); when the
regeneration call fails, no plan is written — the stored plans and their
timestamps stay untouched — but the failure is not handled locally: it
propagates to the caller instead of the user being informed. -/
theorem C7_regeneration_amended (db : DB) (u : User)
    (gen : User → Option (String × String)) (now : ℕ) :
    (gen u = none → update_user_plans db u gen now = none)
    ∧ (∀ w d, gen u = some (w, d) →
        update_user_plans db u gen now
          = some (save_user db { u with workout_plan := some ⟨now, w⟩, diet_plan := some ⟨now, d⟩ },
              { u with workout_plan := some ⟨now, w⟩, diet_plan := some ⟨now, d⟩ }, w, d)) := by
  constructor
  · intro hg
    unfold update_user_plans
    rw [hg]
  · intro w d hg
    unfold update_user_plans
    rw [hg]

/-- Witness for C7 amended with a failing and a succeeding regenerator. -/
theorem C7_regeneration_amended_witness :
    update_user_plans dbEmpty user0 genFail 7 = none
    ∧ update_user_plans dbEmpty user0 genOk 7
      = some (save_user dbEmpty { user0 with workout_plan := some ⟨7, "wplan"⟩, diet_plan := some ⟨7, "dplan"⟩ },
          { user0 with workout_plan := some ⟨7, "wplan"⟩, diet_plan := some ⟨7, "dplan"⟩ }, "wplan", "dplan") :=
  ⟨(C7_regeneration_amended dbEmpty user0 genFail 7).1 rfl,
    (C7_regeneration_amended dbEmpty user0 genOk 7).2 "wplan" "dplan" rfl⟩

/-- One already-persisted conversation turn. -/
def msg8 : Message := ⟨5, "hi", "yo"⟩

/-- A user whose history holds one turn. -/
def user8 : User :=
  { user0 with user_id := "u8", conversation_history := [msg8] }

/-- C8 (code bug): `save_user` re-INSERTs the whole in-memory history on
every save (its own comment says it saves "any NEW conversation
messages"), so saving a user whose turn is already persisted duplicates
the turn: after a second save, load returns the turn twice.  A single
save into a fresh database does round-trip the raw attributes and the
history. -/
theorem C8_history_duplication :
    ((get_user (save_user (save_user dbEmpty user8) user8) "u8").map
        (fun v => v.conversation_history)) = some [msg8, msg8]
    ∧ user8.conversation_history = [msg8]
    ∧ ((get_user (save_user dbEmpty user8) "u8").map
        (fun v => (v.profile_data, v.conversation_history)))
      = some (user8.profile_data, [msg8]) :=
  ⟨by decide, rfl, by decide⟩

/-- A user with ten persisted turns. -/
def user9 : User :=
  { user0 with conversation_history := (List.range 10).map (fun i => ⟨i, "u", "b"⟩) }

/-- C9 counterexample: `predict` hands the model the CURRENT
`chat_history` and then appends the new turn to it without any cap, so
the history supplied at the call after the first one in a session seeded
with 10 persisted turns has 22 entries (11 turns) — the 10-turn cap only
applies to the seeding in `setup_llm`, not to every model call. -/
theorem C9_window_counterexample :
    (¬ ∀ (u : User) (input : String)
        (llm : User → List ChatMsg → String → String),
        (((setup_llm u).predict input llm).2).chat_history.length ≤ 2 * 10)
    ∧ (setup_llm user9).chat_history.length = 2 * 10
    ∧ (((setup_llm user9).predict "x" llm0).2).chat_history.length = 22 := by
  refine ⟨?_, by decide, by decide⟩
  intro hall
  have hle := hall user9 "x" llm0
  rw [(by decide :
    (((setup_llm user9).predict "x" llm0).2).chat_history.length = 22)] at hle
  exact absurd hle (by norm_num)

/-- C9 amended: the history seeded into the model context at `setup_llm`
is capped at the most recent 10 persisted turns (2 entries per turn);
each `predict` call supplies exactly the current history to the model
and then appends the new turn uncapped, so within a session the supplied
history is the capped seed plus every in-session turn. -/
theorem C9_window_amended (u : User) (c : Conversation) (input : String)
    (llm : User → List ChatMsg → String → String) :
    (setup_llm u).chat_history.length = 2 * min u.conversation_history.length 10
    ∧ (c.predict input llm).1 = llm c.sysUser c.chat_history input
    ∧ ((c.predict input llm).2).chat_history.length
      = c.chat_history.length + 2 := by
  refine ⟨?_, rfl, ?_⟩
  · unfold setup_llm
    rw [chatHistory_length, List.length_drop]
    omega
  · unfold Conversation.predict
    simp

/-- C10: any message whose lowered text contains "vegetarian" but
neither "vegan" nor "plant-based" extracts dietary preference
Vegetarian; since "non-vegetarian" contains "vegetarian", the
Non-vegetarian value can only ever come from "meat" or "omnivore"
(with no vegetarian/vegan/plant-based mention), never from the literal
phrase "non-vegetarian". -/
theorem C10_dietary (msg : String)
    (hveg : containsSub (lower msg) "vegetarian" = true)
    (hvegan : containsSub (lower msg) "vegan" = false)
    (hplant : containsSub (lower msg) "plant-based" = false) :
    (parse_profile_update msg).dietary_preference
      = some DietaryPreference.Vegetarian
    ∧ (∀ m : String, containsSub (lower m) "non-vegetarian" = true →
        containsSub (lower m) "vegetarian" = true)
    ∧ (∀ m : String,
        (parse_profile_update m).dietary_preference
          = some DietaryPreference.NonVegetarian →
        (containsSub (lower m) "meat" = true
          ∨ containsSub (lower m) "omnivore" = true)
        ∧ containsSub (lower m) "vegetarian" = false) := by
  have htrans : ∀ m2 : String, containsSub (lower m2) "non-vegetarian" = true →
      containsSub (lower m2) "vegetarian" = true := by
    intro m2 h
    have hinf := of_decide_eq_true h
    have hsub : List.IsInfix "vegetarian".toList "non-vegetarian".toList := by
      decide
    exact decide_eq_true (hsub.trans hinf)
  refine ⟨?_, htrans, ?_⟩
  · show dietOf (lower msg) = some DietaryPreference.Vegetarian
    unfold dietOf
    rw [hvegan, hplant, hveg]
    simp
  · intro m hd
    have hd2 : dietOf (lower m) = some DietaryPreference.NonVegetarian := hd
    unfold dietOf at hd2
    cases h1 : containsSub (lower m) "vegan" <;> rw [h1] at hd2
    · cases h2 : containsSub (lower m) "plant-based" <;> rw [h2] at hd2
      · cases h3 : containsSub (lower m) "vegetarian" <;> rw [h3] at hd2
        · cases h4 : containsSub (lower m) "non-vegetarian" <;> rw [h4] at hd2
          · cases h5 : containsSub (lower m) "meat" <;> rw [h5] at hd2
            · cases h6 : containsSub (lower m) "omnivore" <;> rw [h6] at hd2
              · simp at hd2
              · exact ⟨Or.inr rfl, rfl⟩
            · exact ⟨Or.inl rfl, rfl⟩
          · exact absurd (htrans m h4) (by simp [h3])
        · simp at hd2
      · simp at hd2
    · simp at hd2

/-- Witness for C10 at the literal message "i am non-vegetarian". -/
theorem C10_dietary_witness :
    (parse_profile_update "i am non-vegetarian").dietary_preference
      = some DietaryPreference.Vegetarian
    ∧ (∀ m : String, containsSub (lower m) "non-vegetarian" = true →
        containsSub (lower m) "vegetarian" = true)
    ∧ (∀ m : String,
        (parse_profile_update m).dietary_preference
          = some DietaryPreference.NonVegetarian →
        (containsSub (lower m) "meat" = true
          ∨ containsSub (lower m) "omnivore" = true)
        ∧ containsSub (lower m) "vegetarian" = false) :=
  C10_dietary "i am non-vegetarian" (by decide) (by decide) (by decide)
